import Mathlib

set_option maxRecDepth 40000

/-!
Shallow embedding of `src/js/charts/NumberChart.js` from the LiveClient
repository: the `NumberChart` widget state and its operations, and the
`LineChart` widget state with its sliding-window sample buffers, displayed
maximum, and axis-rescale bookkeeping.  JS numbers are modelled as `ℚ`;
series identifiers as `ℕ`; the sparse `data` array keyed by series id as an
association list; DOM/SVG/d3 rendering effects are outside the model.
Operations that can throw a JS exception (`TypeError` on a missing buffer,
`RangeError` on a bad array length) return `Option`.
-/

namespace LiveClient

/-- JS `Math.max(...arr)` over a spread array: `none` models the
`-Infinity` result on an empty array. -/
def jsMaxList : List ℚ → Option ℚ
  | [] => none
  | h :: t => some (t.foldl max h)

/-- JS `Array.prototype.indexOf`: first index of `x` in `l`, `-1` if absent. -/
def jsIndexOf : List ℕ → ℕ → Int
  | [], _ => -1
  | h :: t, x =>
    if h = x then 0
    else
      let r := jsIndexOf t x
      if r = -1 then -1 else r + 1

/-- JS `Array.prototype.splice(start, 1)`: removes at most one element at
the (negatively wrapped, clamped) start index. -/
def jsSpliceRemoveOne (l : List ℕ) (start : Int) : List ℕ :=
  let len : Int := l.length
  let s := if start < 0 then max (len + start) 0 else min start len
  l.take s.toNat ++ l.drop (s.toNat + 1)

/-- `q` as a JS array length: succeeds exactly when `q` is a non-negative
integer, as required by `new Array(q)` and by assigning `arr.length = q`
(otherwise a `RangeError` is thrown). -/
def ratToNat? (q : ℚ) : Option ℕ :=
  if q.den = 1 ∧ 0 ≤ q.num then some q.num.toNat else none

/-- State of the `NumberChart` widget (constructor of `NumberChart`):
`chartMap` of registered data-type ids, the sampling time, and the value
shown in the text container (initialised to `0` by `setup`). -/
structure NumberChart where
  chartMap : List ℕ
  samplingTime : ℚ
  displayedValue : ℚ
  deriving DecidableEq, Repr

namespace NumberChart

/-- The state right after `new NumberChart(element)`. -/
def initial : NumberChart :=
  { chartMap := [], samplingTime := 10, displayedValue := 0 }

/-- `NumberChart.push(lineId, value)`: sets the displayed text to `value`;
`lineId` is ignored. -/
def push (lineId : ℕ) (value : ℚ) (s : NumberChart) : NumberChart :=
  { s with displayedValue := value }

/-- `NumberChart.addDataType(dataType)`. -/
def addDataType (dataType : ℕ) (s : NumberChart) : NumberChart :=
  { s with chartMap := s.chartMap ++ [dataType] }

/-- `NumberChart.removeDataType(dataType)`:
`chartMap.splice(chartMap.indexOf(dataType), 1)`. -/
def removeDataType (dataType : ℕ) (s : NumberChart) : NumberChart :=
  { s with chartMap := jsSpliceRemoveOne s.chartMap (jsIndexOf s.chartMap dataType) }

/-- `NumberChart.getSamplingTime()`. -/
def getSamplingTime (s : NumberChart) : ℚ := s.samplingTime

/-- `NumberChart.setSamplingTime(samplingTime)`. -/
def setSamplingTime (samplingTime : ℚ) (s : NumberChart) : NumberChart :=
  { s with samplingTime := samplingTime }

/-- `NumberChart.hasPeriod()`. -/
def hasPeriod (_ : NumberChart) : Bool := false

end NumberChart

/-- State of the `LineChart` widget: registered ids, per-series sample
buffers (`data`, a sparse array keyed by id), the displayed maximum used as
the y-axis upper bound, the period (s) and sampling time (ms), the current
upper end of the y-scale domain, and a count of `rescaleAxis` invocations
(instrumentation recording how often a rescale was triggered). -/
structure LineChart where
  chartMap : List ℕ
  data : List (ℕ × List ℚ)
  maxDisplayedValue : ℚ
  period : ℚ
  samplingTime : ℚ
  yScaleUpper : ℚ
  rescaleCount : ℕ
  deriving DecidableEq, Repr

/-- Lookup `data[dataType]` in the sparse data array. -/
def dataLookup : List (ℕ × List ℚ) → ℕ → Option (List ℚ)
  | [], _ => none
  | (k, b) :: t, x => if k = x then some b else dataLookup t x

/-- Assignment `data[dataType] = b` in the sparse data array. -/
def setData (x : ℕ) (b : List ℚ) : List (ℕ × List ℚ) → List (ℕ × List ℚ)
  | [] => [(x, b)]
  | (k, b') :: t => if k = x then (x, b) :: t else (k, b') :: setData x b t

/-- JS `delete data[dataType]`: removes the key. -/
def removeKey (x : ℕ) : List (ℕ × List ℚ) → List (ℕ × List ℚ)
  | [] => []
  | (k, b) :: t => if k = x then removeKey x t else (k, b) :: removeKey x t

/-- All samples currently present across all live buffers, in buffer order. -/
def allSamples (d : List (ℕ × List ℚ)) : List ℚ :=
  (d.map Prod.snd).flatten

namespace LineChart

/-- The state right after `new LineChart(element)`: empty chart map and
data, `maxDisplayedValue = 0`, `period = 6`, `samplingTime = 10`; `setup`
initialises the y-scale domain to `[1, 0]`. -/
def initial : LineChart :=
  { chartMap := [], data := [], maxDisplayedValue := 0, period := 6,
    samplingTime := 10, yScaleUpper := 1, rescaleCount := 0 }

/-- `LineChart.getSamplingTime()`. -/
def getSamplingTime (s : LineChart) : ℚ := s.samplingTime

/-- `LineChart.setSamplingTime(samplingTime)`. -/
def setSamplingTime (samplingTime : ℚ) (s : LineChart) : LineChart :=
  { s with samplingTime := samplingTime }

/-- `LineChart.getAmountOfValues()`: `period / getSamplingTime() * 1000`. -/
def getAmountOfValues (s : LineChart) : ℚ :=
  s.period / s.getSamplingTime * 1000

/-- `LineChart.getMaxValueFromData()`: folds over `Object.keys(data)`,
taking `Math.max(...arr)` per buffer and keeping it when it beats the
accumulator, starting from `0`. -/
def getMaxValueFromData (s : LineChart) : ℚ :=
  s.data.foldl
    (fun acc e =>
      match jsMaxList e.2 with
      | none => acc
      | some m => if acc < m then m else acc)
    0

/-- `LineChart.rescaleAxis()`: sets the y-scale domain to
`[maxDisplayedValue, 0]`; the invocation counter records that a rescale was
triggered. -/
def rescaleAxis (s : LineChart) : LineChart :=
  { s with yScaleUpper := s.maxDisplayedValue, rescaleCount := s.rescaleCount + 1 }

/-- `LineChart.addDataType(dataType)`:
`data[dataType] = new Array(getAmountOfValues() - 1).fill(0)`, then appends
`dataType` to the chart map.  `none` when `new Array` throws a
`RangeError`. -/
def addDataType (dataType : ℕ) (s : LineChart) : Option LineChart :=
  (ratToNat? (getAmountOfValues s - 1)).map fun n =>
    { s with data := setData dataType (List.replicate n 0) s.data,
             chartMap := s.chartMap ++ [dataType] }

/-- `LineChart.push(dataType, value)`: appends `value` to the buffer; when
the buffer length reaches `getAmountOfValues()` the front sample is shifted
off, and if it was `>=` the displayed maximum the maximum is recomputed
from the data and the axis rescaled; finally if `value` exceeds the
displayed maximum the maximum becomes `value` and the axis is rescaled.
`none` when `data[dataType]` is absent (JS `TypeError`).  `pushGo` is the
body of the call once the buffer has been found. -/
def pushGo (s : LineChart) (dataType : ℕ) (value : ℚ) (buf : List ℚ) : LineChart :=
  let b := buf ++ [value]
  let s1 := { s with data := setData dataType b s.data }
  let s2 :=
    if getAmountOfValues s1 ≤ (b.length : ℚ) then
      let droppedValue := b.headI
      let s3 := { s1 with data := setData dataType (b.drop 1) s1.data }
      if s3.maxDisplayedValue ≤ droppedValue then
        rescaleAxis { s3 with maxDisplayedValue := getMaxValueFromData s3 }
      else s3
    else s1
  if s2.maxDisplayedValue < value then
    rescaleAxis { s2 with maxDisplayedValue := value }
  else s2

def push (dataType : ℕ) (value : ℚ) (s : LineChart) : Option LineChart :=
  match dataLookup s.data dataType with
  | none => none
  | some buf => some (pushGo s dataType value buf)

/-- `LineChart.removeDataType(dataType)`: splices the id out of the chart
map, deletes the buffer, then recomputes the displayed maximum from the
remaining data. -/
def removeDataType (dataType : ℕ) (s : LineChart) : LineChart :=
  let s1 := { s with
    chartMap := jsSpliceRemoveOne s.chartMap (jsIndexOf s.chartMap dataType),
    data := removeKey dataType s.data }
  { s1 with maxDisplayedValue := getMaxValueFromData s1 }

/-- The per-buffer adjustment loop of `LineChart.changePeriod`: each buffer
longer than the (new) capacity has its length assigned to the capacity
(truncation); `none` when that assignment throws a `RangeError`. -/
def truncateData (cap : ℚ) : List (ℕ × List ℚ) → Option (List (ℕ × List ℚ))
  | [] => some []
  | (k, arr) :: t =>
    if cap < (arr.length : ℚ) then
      match ratToNat? cap with
      | none => none
      | some m => (truncateData cap t).map (fun t' => (k, arr.take m) :: t')
    else (truncateData cap t).map (fun t' => (k, arr) :: t')

/-- `LineChart.changePeriod(newPeriod)`: sets the period, then truncates
every buffer longer than the new capacity. -/
def changePeriod (newPeriod : ℚ) (s : LineChart) : Option LineChart :=
  let s1 := { s with period := newPeriod }
  (truncateData (getAmountOfValues s1) s1.data).map fun d =>
    { s1 with data := d }

/-- `LineChart.hasPeriod()`. -/
def hasPeriod (_ : LineChart) : Bool := true

/-- A sequence of `push` calls to one series, in order. -/
def pushMany (dataType : ℕ) (vs : List ℚ) (s : LineChart) : Option LineChart :=
  vs.foldl (fun o v => o.bind (push dataType v)) (some s)

/-- States of a `LineChart` reachable from construction by `addDataType`,
`push`, `removeDataType` and `changePeriod` calls (those that do not throw). -/
inductive Reach : LineChart → Prop
  | init : Reach initial
  | add {s s' : LineChart} (k : ℕ) : Reach s → addDataType k s = some s' → Reach s'
  | step {s s' : LineChart} (k : ℕ) (v : ℚ) : Reach s → push k v s = some s' → Reach s'
  | remove {s : LineChart} (k : ℕ) : Reach s → Reach (removeDataType k s)
  | period {s s' : LineChart} (p : ℚ) : Reach s → changePeriod p s = some s' → Reach s'

end LineChart

/-- The maximum of `0` and all samples across all live buffers: the
specification-side reading of "the true max across all live buffers"
clamped below at `0` the way the code's fold is. -/
def clampedMax (d : List (ℕ × List ℚ)) : ℚ :=
  (allSamples d).foldl max 0

/-- The documented display-state invariant: the displayed maximum is
non-negative and bounds every sample currently present in every live
buffer. -/
def Inv (s : LineChart) : Prop :=
  0 ≤ s.maxDisplayedValue ∧
    ∀ k buf, dataLookup s.data k = some buf → ∀ x ∈ buf, x ≤ s.maxDisplayedValue

/-- The 601 strictly increasing values `1, 2, ..., 601` of the capacity
scenario. -/
def seq601 : List ℚ := List.map (fun i : ℕ => (i : ℚ) + 1) (List.range 601)

/-- The chart obtained from construction by `addDataType(0)`: one series
with a zero-filled buffer of length `599`. -/
def freshChart : LineChart :=
  { chartMap := [0], data := [(0, List.replicate 599 0)], maxDisplayedValue := 0,
    period := 6, samplingTime := 10, yScaleUpper := 1, rescaleCount := 0 }

/-- `freshChart` after `push(0, 0)`: the eviction keeps the buffer at `599`
zeros and the recompute branch rescaled the axis once. -/
def freshChartAfter : LineChart :=
  { chartMap := [0], data := [(0, List.replicate 599 0)], maxDisplayedValue := 0,
    period := 6, samplingTime := 10, yScaleUpper := 0, rescaleCount := 1 }

/-- Chart reached by `changePeriod(1/50)`; capacity `2`, no series yet. -/
def smallChart : LineChart :=
  { chartMap := [], data := [], maxDisplayedValue := 0, period := 1/50,
    samplingTime := 10, yScaleUpper := 1, rescaleCount := 0 }

/-- `smallChart` after `addDataType(0)`: a single buffer `[0]`. -/
def smallChartA : LineChart :=
  { chartMap := [0], data := [(0, [0])], maxDisplayedValue := 0, period := 1/50,
    samplingTime := 10, yScaleUpper := 1, rescaleCount := 0 }

/-- Chart reached from construction by `changePeriod(1/50)`,
`addDataType(0)`, `setSamplingTime(20)` (capacity drops to `1`),
`addDataType(1)` (an empty buffer) and `push(1, 7)`: the pushed `7` was
evicted immediately, leaving `maxDisplayedValue = 7` with no stored `7`. -/
def evictedMaxChart : LineChart :=
  { chartMap := [0, 1], data := [(0, [0]), (1, [])], maxDisplayedValue := 7,
    period := 1/50, samplingTime := 20, yScaleUpper := 7, rescaleCount := 2 }

/-- `evictedMaxChart` after one more `push(1, 7)`: the eviction dropped the
newly pushed `7` (which equalled the displayed maximum), the recompute found
`0`, and the value branch restored `7`. -/
def evictedMaxChartAfter : LineChart :=
  { chartMap := [0, 1], data := [(0, [0]), (1, [])], maxDisplayedValue := 7,
    period := 1/50, samplingTime := 20, yScaleUpper := 7, rescaleCount := 4 }

/-- A capacity-2 chart whose buffer `[2, 1]` is about to evict its head
`2`, the current displayed maximum. -/
def evictHeadChart : LineChart :=
  { chartMap := [0], data := [(0, [2, 1])], maxDisplayedValue := 2,
    period := 1/50, samplingTime := 10, yScaleUpper := 2, rescaleCount := 0 }

/-- Chart reached from construction by `changePeriod(1/50)`,
`addDataType(0)` and `push(0, -1)`: the only live sample is `-1` yet
`getMaxValueFromData` returns `0`. -/
def negChart : LineChart :=
  { chartMap := [0], data := [(0, [-1])], maxDisplayedValue := 0,
    period := 1/50, samplingTime := 10, yScaleUpper := 0, rescaleCount := 1 }

/-- Two series with buffer maxima `5` and `3` (the removal scenario). -/
def twoSeriesChart : LineChart :=
  { chartMap := [0, 1], data := [(0, [5]), (1, [3])], maxDisplayedValue := 5,
    period := 1/50, samplingTime := 20, yScaleUpper := 5, rescaleCount := 0 }

/-- Chart reached from construction by `changePeriod(1/50)`,
`addDataType(0)`, `addDataType(1)`, `push(0, 5)` and `push(1, -3)`:
buffers `[5]` and `[-3]`. -/
def negPairChart : LineChart :=
  { chartMap := [0, 1], data := [(0, [5]), (1, [-3])], maxDisplayedValue := 5,
    period := 1/50, samplingTime := 10, yScaleUpper := 5, rescaleCount := 1 }

/-- A chart whose buffer `[1, 2, 3]` is longer than its capacity
`1/5` (period `1/500` s at sampling time `10` ms). -/
def overfullChart : LineChart :=
  { chartMap := [0], data := [(0, [1, 2, 3])], maxDisplayedValue := 3,
    period := 1/500, samplingTime := 10, yScaleUpper := 3, rescaleCount := 0 }

/-- `overfullChart` after `push(0, 4)`. -/
def overfullChartA : LineChart :=
  { chartMap := [0], data := [(0, [2, 3, 4])], maxDisplayedValue := 4,
    period := 1/500, samplingTime := 10, yScaleUpper := 4, rescaleCount := 1 }

/-- `overfullChart` after `push(0, 4)` and `push(0, 5)`. -/
def overfullChartB : LineChart :=
  { chartMap := [0], data := [(0, [3, 4, 5])], maxDisplayedValue := 5,
    period := 1/500, samplingTime := 10, yScaleUpper := 5, rescaleCount := 2 }

/-- A `NumberChart` with two registered data types. -/
def twoTypeNumberChart : NumberChart :=
  { chartMap := [3, 8], samplingTime := 10, displayedValue := 0 }

/-- A `LineChart` with two registered data types and no special data. -/
def twoTypeLineChart : LineChart :=
  { chartMap := [3, 8], data := [(3, [1]), (8, [2])], maxDisplayedValue := 2,
    period := 1/50, samplingTime := 10, yScaleUpper := 2, rescaleCount := 0 }

/-- `smallChartA` after `setSamplingTime(20)`: capacity drops to `1`. -/
def narrowChart : LineChart :=
  { chartMap := [0], data := [(0, [0])], maxDisplayedValue := 0, period := 1/50,
    samplingTime := 20, yScaleUpper := 1, rescaleCount := 0 }

/-- `narrowChart` after `addDataType(1)`: the new buffer is empty. -/
def narrowChartB : LineChart :=
  { chartMap := [0, 1], data := [(0, [0]), (1, [])], maxDisplayedValue := 0,
    period := 1/50, samplingTime := 20, yScaleUpper := 1, rescaleCount := 0 }

/-- A construction-time-configuration chart holding `599` zero samples with
a displayed maximum of `1` (so the eviction of a `0` does not recompute). -/
def paddedChart : LineChart :=
  { chartMap := [0], data := [(0, List.replicate 599 0)], maxDisplayedValue := 1,
    period := 6, samplingTime := 10, yScaleUpper := 1, rescaleCount := 0 }

/-- `paddedChart` after `push(0, 0)`: eviction without recompute. -/
def paddedChartAfter : LineChart :=
  { chartMap := [0], data := [(0, (List.replicate 599 (0:ℚ) ++ [0]).drop 1)],
    maxDisplayedValue := 1, period := 6, samplingTime := 10, yScaleUpper := 1,
    rescaleCount := 0 }

/-- `evictHeadChart` after `push(0, 5)`: the head `2` (the previous
maximum) was evicted and the maximum recomputed to `5`. -/
def evictHeadChartAfter : LineChart :=
  { chartMap := [0], data := [(0, [1, 5])], maxDisplayedValue := 5,
    period := 1/50, samplingTime := 10, yScaleUpper := 5, rescaleCount := 1 }

/-- `smallChartA` after `addDataType(1)`: two buffers `[0]` and `[0]`. -/
def pairChartA : LineChart :=
  { chartMap := [0, 1], data := [(0, [0]), (1, [0])], maxDisplayedValue := 0,
    period := 1/50, samplingTime := 10, yScaleUpper := 1, rescaleCount := 0 }

/-- `pairChartA` after `push(0, 5)`. -/
def pairChartB : LineChart :=
  { chartMap := [0, 1], data := [(0, [5]), (1, [0])], maxDisplayedValue := 5,
    period := 1/50, samplingTime := 10, yScaleUpper := 5, rescaleCount := 1 }

/-! ### Folding with `max` -/

theorem le_foldl_max (l : List ℚ) (a : ℚ) : a ≤ l.foldl max a := by
  induction l generalizing a with
  | nil => exact le_refl a
  | cons h t ih => exact (le_max_left a h).trans (ih (max a h))

theorem foldl_max_le_of_mem {x : ℚ} {l : List ℚ} (h : x ∈ l) (a : ℚ) :
    x ≤ l.foldl max a := by
  induction l generalizing a with
  | nil => cases h
  | cons c t ih =>
    rcases List.mem_cons.mp h with rfl | hx
    · exact (le_max_right a x).trans (le_foldl_max t (max a x))
    · exact ih hx (max a c)

theorem foldl_max_comm (l : List ℚ) : ∀ a b : ℚ, l.foldl max (max a b) = max a (l.foldl max b) := by
  induction l with
  | nil => intro a b; rfl
  | cons c t ih =>
    intro a b
    show t.foldl max (max (max a b) c) = max a (t.foldl max (max b c))
    rw [max_assoc, ih]

/-! ### The data association list -/

theorem dataLookup_mem : ∀ {d : List (ℕ × List ℚ)} {k : ℕ} {buf : List ℚ},
    dataLookup d k = some buf → (k, buf) ∈ d := by
  intro d
  induction d with
  | nil => intro k buf h; cases h
  | cons e t ih =>
    intro k buf h
    obtain ⟨a, b⟩ := e
    by_cases hk : a = k
    · subst hk
      simp only [dataLookup, if_true, eq_self_iff_true, Option.some.injEq] at h
      subst h
      exact List.mem_cons_self _ _
    · simp only [dataLookup, if_neg hk] at h
      exact List.mem_cons_of_mem _ (ih h)

theorem dataLookup_setData_self (d : List (ℕ × List ℚ)) (x : ℕ) (b : List ℚ) :
    dataLookup (setData x b d) x = some b := by
  induction d with
  | nil => simp [setData, dataLookup]
  | cons e t ih =>
    obtain ⟨a, b'⟩ := e
    by_cases ha : a = x
    · simp [setData, ha, dataLookup]
    · simp [setData, ha, dataLookup, ih]

theorem dataLookup_setData_ne (d : List (ℕ × List ℚ)) {x k : ℕ} (b : List ℚ)
    (h : k ≠ x) : dataLookup (setData x b d) k = dataLookup d k := by
  induction d with
  | nil => simp [setData, dataLookup, Ne.symm h]
  | cons e t ih =>
    obtain ⟨a, b'⟩ := e
    by_cases ha : a = x
    · subst ha
      simp [setData, dataLookup, Ne.symm h]
    · by_cases hak : a = k
      · simp [setData, ha, dataLookup, hak, h]
      · simp [setData, ha, dataLookup, hak, ih]

theorem dataLookup_removeKey_self (d : List (ℕ × List ℚ)) (x : ℕ) :
    dataLookup (removeKey x d) x = none := by
  induction d with
  | nil => rfl
  | cons e t ih =>
    obtain ⟨a, b⟩ := e
    by_cases ha : a = x
    · simpa [removeKey, ha] using ih
    · simp [removeKey, ha, dataLookup, ih]

theorem dataLookup_removeKey_ne (d : List (ℕ × List ℚ)) {x k : ℕ} (h : k ≠ x) :
    dataLookup (removeKey x d) k = dataLookup d k := by
  induction d with
  | nil => rfl
  | cons e t ih =>
    obtain ⟨a, b⟩ := e
    by_cases ha : a = x
    · subst ha
      simp [removeKey, dataLookup, Ne.symm h, ih]
    · by_cases hak : a = k
      · simp [removeKey, ha, dataLookup, hak, h]
      · simp [removeKey, ha, dataLookup, hak, ih]

theorem mem_removeKey : ∀ {d : List (ℕ × List ℚ)} {x : ℕ} {e : ℕ × List ℚ},
    e ∈ removeKey x d → e ∈ d := by
  intro d x
  induction d with
  | nil => intro e h; cases h
  | cons c t ih =>
    intro e h
    obtain ⟨a, b⟩ := c
    by_cases ha : a = x
    · rw [removeKey, if_pos ha] at h
      exact List.mem_cons_of_mem _ (ih h)
    · rw [removeKey, if_neg ha] at h
      rcases List.mem_cons.mp h with rfl | hm
      · exact List.mem_cons_self _ _
      · exact List.mem_cons_of_mem _ (ih hm)

/-! ### `getMaxValueFromData` as the clamped sample maximum -/

theorem allSamples_cons (e : ℕ × List ℚ) (t : List (ℕ × List ℚ)) :
    allSamples (e :: t) = e.2 ++ allSamples t := by
  simp [allSamples]

theorem jsStep_eq_foldl (acc : ℚ) (arr : List ℚ) :
    (match jsMaxList arr with
      | none => acc
      | some m => if acc < m then m else acc) = arr.foldl max acc := by
  cases arr with
  | nil => rfl
  | cons h t =>
    show (if acc < t.foldl max h then t.foldl max h else acc) = (h :: t).foldl max acc
    have hr : (h :: t).foldl max acc = max acc (t.foldl max h) := foldl_max_comm t acc h
    rw [hr]
    by_cases hc : acc < t.foldl max h
    · rw [if_pos hc, max_eq_right hc.le]
    · rw [if_neg hc, max_eq_left (not_lt.mp hc)]

theorem foldl_step_eq (d : List (ℕ × List ℚ)) : ∀ acc : ℚ,
    d.foldl (fun acc e =>
      match jsMaxList e.2 with
      | none => acc
      | some m => if acc < m then m else acc) acc
      = (allSamples d).foldl max acc := by
  induction d with
  | nil => intro acc; rfl
  | cons e t ih =>
    intro acc
    show t.foldl _ (match jsMaxList e.2 with
      | none => acc
      | some m => if acc < m then m else acc) = (allSamples (e :: t)).foldl max acc
    rw [jsStep_eq_foldl, ih, allSamples_cons, List.foldl_append]

theorem getMax_eq_clampedMax (s : LineChart) :
    LineChart.getMaxValueFromData s = clampedMax s.data := by
  rw [LineChart.getMaxValueFromData, clampedMax, foldl_step_eq]

theorem clampedMax_nonneg (d : List (ℕ × List ℚ)) : 0 ≤ clampedMax d :=
  le_foldl_max _ 0

theorem le_clampedMax_of_mem {d : List (ℕ × List ℚ)} {k : ℕ} {buf : List ℚ} {x : ℚ}
    (hm : (k, buf) ∈ d) (hx : x ∈ buf) : x ≤ clampedMax d := by
  have hbuf : buf ∈ d.map Prod.snd := List.mem_map.mpr ⟨(k, buf), hm, rfl⟩
  have hxs : x ∈ allSamples d := List.mem_flatten.mpr ⟨buf, hbuf, hx⟩
  exact foldl_max_le_of_mem hxs 0

theorem dataLookup_setData_setData (d : List (ℕ × List ℚ)) (x : ℕ)
    (b₁ b₂ : List ℚ) (k : ℕ) :
    dataLookup (setData x b₂ (setData x b₁ d)) k = dataLookup (setData x b₂ d) k := by
  by_cases hk : k = x
  · subst hk; rw [dataLookup_setData_self, dataLookup_setData_self]
  · rw [dataLookup_setData_ne _ _ hk, dataLookup_setData_ne _ _ hk,
      dataLookup_setData_ne _ _ hk]

/-! ### Characterising `push` -/

theorem push_eq {s : LineChart} {dt : ℕ} {buf : List ℚ} (v : ℚ)
    (hl : dataLookup s.data dt = some buf) :
    LineChart.push dt v s = some (LineChart.pushGo s dt v buf) := by
  unfold LineChart.push
  rw [hl]

theorem pushGo_period (s : LineChart) (dt : ℕ) (v : ℚ) (buf : List ℚ) :
    (LineChart.pushGo s dt v buf).period = s.period := by
  unfold LineChart.pushGo
  dsimp only
  split_ifs <;> rfl

theorem pushGo_samplingTime (s : LineChart) (dt : ℕ) (v : ℚ) (buf : List ℚ) :
    (LineChart.pushGo s dt v buf).samplingTime = s.samplingTime := by
  unfold LineChart.pushGo
  dsimp only
  split_ifs <;> rfl

theorem pushGo_chartMap (s : LineChart) (dt : ℕ) (v : ℚ) (buf : List ℚ) :
    (LineChart.pushGo s dt v buf).chartMap = s.chartMap := by
  unfold LineChart.pushGo
  dsimp only
  split_ifs <;> rfl

theorem pushGo_getAmount (s : LineChart) (dt : ℕ) (v : ℚ) (buf : List ℚ) :
    LineChart.getAmountOfValues (LineChart.pushGo s dt v buf)
      = LineChart.getAmountOfValues s := by
  unfold LineChart.getAmountOfValues LineChart.getSamplingTime
  rw [pushGo_period, pushGo_samplingTime]

theorem pushGo_lookup_self (s : LineChart) (dt : ℕ) (v : ℚ) (buf : List ℚ) :
    dataLookup (LineChart.pushGo s dt v buf).data dt =
      some (if LineChart.getAmountOfValues s ≤ ((buf ++ [v]).length : ℚ)
            then (buf ++ [v]).drop 1 else buf ++ [v]) := by
  unfold LineChart.pushGo
  dsimp only [LineChart.getAmountOfValues, LineChart.getSamplingTime]
  split_ifs <;>
    simp [LineChart.rescaleAxis, dataLookup_setData_setData, dataLookup_setData_self]

theorem pushGo_lookup_ne (s : LineChart) (dt : ℕ) (v : ℚ) (buf : List ℚ)
    {k : ℕ} (hk : k ≠ dt) :
    dataLookup (LineChart.pushGo s dt v buf).data k = dataLookup s.data k := by
  unfold LineChart.pushGo
  dsimp only
  split_ifs <;>
    simp [LineChart.rescaleAxis, dataLookup_setData_ne _ _ hk]

/-! ### Preservation of the display-state invariant -/

theorem inv_final (s2 : LineChart) (v : ℚ)
    (h0 : 0 ≤ s2.maxDisplayedValue)
    (hs : ∀ k buf, dataLookup s2.data k = some buf →
      ∀ x ∈ buf, x ≤ s2.maxDisplayedValue ∨ x = v) :
    Inv (if s2.maxDisplayedValue < v then
          LineChart.rescaleAxis { s2 with maxDisplayedValue := v } else s2) := by
  split_ifs with hv
  · refine ⟨h0.trans hv.le, ?_⟩
    intro k buf hl x hx
    have hl' : dataLookup s2.data k = some buf := hl
    rcases hs k buf hl' x hx with h | rfl
    · exact (h.trans hv.le)
    · exact le_refl _
  · refine ⟨h0, ?_⟩
    intro k buf hl x hx
    rcases hs k buf hl x hx with h | rfl
    · exact h
    · exact not_lt.mp hv

theorem samples_setData_le_or_eq {d : List (ℕ × List ℚ)} {dt : ℕ} {M v : ℚ}
    {b' : List ℚ}
    (hub : ∀ k bufk, dataLookup d k = some bufk → ∀ x ∈ bufk, x ≤ M)
    (hsub : ∀ x ∈ b', x ≤ M ∨ x = v) :
    ∀ k bufk, dataLookup (setData dt b' d) k = some bufk →
      ∀ x ∈ bufk, x ≤ M ∨ x = v := by
  intro k bufk hlk x hx
  by_cases hk : k = dt
  · subst hk
    rw [dataLookup_setData_self] at hlk
    injection hlk with hbe
    subst hbe
    exact hsub x hx
  · rw [dataLookup_setData_ne _ _ hk] at hlk
    exact Or.inl (hub k bufk hlk x hx)

theorem pushGo_inv {s : LineChart} {dt : ℕ} {buf : List ℚ} (v : ℚ)
    (hInv : Inv s) (hl : dataLookup s.data dt = some buf) :
    Inv (LineChart.pushGo s dt v buf) := by
  obtain ⟨h0, hub⟩ := hInv
  have happ : ∀ x ∈ buf ++ [v], x ≤ s.maxDisplayedValue ∨ x = v := by
    intro x hx
    rcases List.mem_append.mp hx with hxl | hxr
    · exact Or.inl (hub dt buf hl x hxl)
    · exact Or.inr (List.mem_singleton.mp hxr)
  have hdrop : ∀ x ∈ (buf ++ [v]).drop 1, x ≤ s.maxDisplayedValue ∨ x = v :=
    fun x hx => happ x (List.mem_of_mem_drop hx)
  unfold LineChart.pushGo
  dsimp only
  refine inv_final _ v ?_ ?_
  · split_ifs with h1 h2
    · show 0 ≤ LineChart.getMaxValueFromData _
      rw [getMax_eq_clampedMax]
      exact clampedMax_nonneg _
    · exact h0
    · exact h0
  · split_ifs with h1 h2
    · -- eviction with recompute: every sample is bounded by the recomputed maximum
      intro k bufk hlk x hx
      refine Or.inl ?_
      show x ≤ LineChart.getMaxValueFromData _
      rw [getMax_eq_clampedMax]
      exact le_clampedMax_of_mem (dataLookup_mem hlk) hx
    · -- eviction without recompute
      intro k bufk hlk x hx
      have hlk' : dataLookup (setData dt ((buf ++ [v]).drop 1) s.data) k = some bufk := by
        rw [← dataLookup_setData_setData s.data dt (buf ++ [v]) ((buf ++ [v]).drop 1) k]
        exact hlk
      exact samples_setData_le_or_eq hub hdrop k bufk hlk' x hx
    · -- no eviction
      intro k bufk hlk x hx
      exact samples_setData_le_or_eq hub happ k bufk hlk x hx

theorem addDataType_inv {s s' : LineChart} {k : ℕ}
    (hInv : Inv s) (ha : LineChart.addDataType k s = some s') : Inv s' := by
  obtain ⟨h0, hub⟩ := hInv
  unfold LineChart.addDataType at ha
  rcases Option.map_eq_some'.mp ha with ⟨n, _, rfl⟩
  refine ⟨h0, ?_⟩
  intro k' buf hl x hx
  by_cases hk : k' = k
  · subst hk
    rw [dataLookup_setData_self] at hl
    injection hl with hbe
    subst hbe
    have hx0 : x = 0 := List.eq_of_mem_replicate hx
    subst hx0
    exact h0
  · rw [dataLookup_setData_ne _ _ hk] at hl
    exact hub k' buf hl x hx

theorem removeDataType_inv (k : ℕ) (s : LineChart) :
    Inv (LineChart.removeDataType k s) := by
  unfold LineChart.removeDataType
  dsimp only
  refine ⟨?_, ?_⟩
  · show (0 : ℚ) ≤ LineChart.getMaxValueFromData _
    rw [getMax_eq_clampedMax]
    exact clampedMax_nonneg _
  · intro k' buf hl x hx
    show x ≤ LineChart.getMaxValueFromData _
    rw [getMax_eq_clampedMax]
    exact le_clampedMax_of_mem (dataLookup_mem hl) hx

theorem truncateData_lookup : ∀ {cap : ℚ} {d d' : List (ℕ × List ℚ)},
    LineChart.truncateData cap d = some d' → ∀ {k : ℕ} {b' : List ℚ},
    dataLookup d' k = some b' → ∃ b, dataLookup d k = some b ∧ ∀ x ∈ b', x ∈ b := by
  intro cap d
  induction d with
  | nil =>
    intro d' ht k b' hl
    rw [LineChart.truncateData] at ht
    injection ht with he
    subst he
    cases hl
  | cons e t ih =>
    intro d' ht k b' hl
    obtain ⟨a, arr⟩ := e
    rw [LineChart.truncateData] at ht
    split_ifs at ht with hcap
    · cases hm : ratToNat? cap with
      | none => rw [hm] at ht; cases ht
      | some m =>
        rw [hm] at ht
        rcases Option.map_eq_some'.mp ht with ⟨t', htt, rfl⟩
        by_cases hk : a = k
        · subst hk
          rw [dataLookup, if_pos rfl] at hl
          injection hl with hbe
          subst hbe
          exact ⟨arr, by rw [dataLookup, if_pos rfl], fun x hx => List.take_subset _ _ hx⟩
        · rw [dataLookup, if_neg hk] at hl
          rcases ih htt hl with ⟨b, hb, hsub⟩
          exact ⟨b, by rw [dataLookup, if_neg hk]; exact hb, hsub⟩
    · rcases Option.map_eq_some'.mp ht with ⟨t', htt, rfl⟩
      by_cases hk : a = k
      · subst hk
        rw [dataLookup, if_pos rfl] at hl
        injection hl with hbe
        subst hbe
        exact ⟨arr, by rw [dataLookup, if_pos rfl], fun x hx => hx⟩
      · rw [dataLookup, if_neg hk] at hl
        rcases ih htt hl with ⟨b, hb, hsub⟩
        exact ⟨b, by rw [dataLookup, if_neg hk]; exact hb, hsub⟩

theorem changePeriod_inv {s s' : LineChart} {p : ℚ}
    (hInv : Inv s) (hc : LineChart.changePeriod p s = some s') : Inv s' := by
  obtain ⟨h0, hub⟩ := hInv
  unfold LineChart.changePeriod at hc
  rcases Option.map_eq_some'.mp hc with ⟨d', hd, rfl⟩
  refine ⟨h0, ?_⟩
  intro k buf hl x hx
  rcases truncateData_lookup hd hl with ⟨b, hb, hsub⟩
  exact hub k b hb x (hsub x hx)

theorem reach_inv {s : LineChart} (h : LineChart.Reach s) : Inv s := by
  induction h with
  | init =>
    refine ⟨le_refl 0, ?_⟩
    intro k buf hl
    simp [LineChart.initial, dataLookup] at hl
  | add k hr ha ih => exact addDataType_inv ih ha
  | step k v hr hp ih =>
    rename_i s₀ s₁
    cases hcase : dataLookup s₀.data k with
    | none =>
      unfold LineChart.push at hp
      rw [hcase] at hp
      cases hp
    | some buf =>
      rw [push_eq v hcase] at hp
      injection hp with he
      subst he
      exact pushGo_inv v ih hcase
  | remove k hr ih => exact removeDataType_inv _ _
  | period p hr hc ih => exact changePeriod_inv ih hc

/-! ### Sequences of pushes -/

theorem foldl_push_none (k : ℕ) (vs : List ℚ) :
    vs.foldl (fun o v => o.bind (LineChart.push k v)) none = none := by
  induction vs with
  | nil => rfl
  | cons v vs ih => exact ih

theorem pushMany_cons (k : ℕ) (v : ℚ) (vs : List ℚ) (s : LineChart) :
    LineChart.pushMany k (v :: vs) s
      = (LineChart.push k v s).bind (fun t => LineChart.pushMany k vs t) := by
  unfold LineChart.pushMany
  show vs.foldl _ ((some s).bind (LineChart.push k v)) = _
  cases hp : LineChart.push k v s with
  | none =>
    rw [Option.some_bind, hp, Option.none_bind]
    exact foldl_push_none k vs
  | some t =>
    rw [Option.some_bind, hp, Option.some_bind]

theorem getAmount_default {s : LineChart} (h6 : s.period = 6)
    (h10 : s.samplingTime = 10) : LineChart.getAmountOfValues s = 600 := by
  unfold LineChart.getAmountOfValues LineChart.getSamplingTime
  rw [h6, h10]
  norm_num

theorem pushMany_over (k : ℕ) : ∀ (vs : List ℚ) (s : LineChart) (buf : List ℚ),
    dataLookup s.data k = some buf →
    LineChart.getAmountOfValues s < (buf.length : ℚ) →
    ∃ s₂ b₂, LineChart.pushMany k vs s = some s₂ ∧ dataLookup s₂.data k = some b₂ ∧
      b₂.length = buf.length ∧
      LineChart.getAmountOfValues s₂ = LineChart.getAmountOfValues s := by
  intro vs
  induction vs with
  | nil =>
    intro s buf hl hover
    exact ⟨s, buf, rfl, hl, rfl, rfl⟩
  | cons v vs ih =>
    intro s buf hl hover
    have hcond : LineChart.getAmountOfValues s ≤ ((buf ++ [v]).length : ℚ) := by
      rw [List.length_append]
      push_cast
      linarith
    have hl' := pushGo_lookup_self s k v buf
    rw [if_pos hcond] at hl'
    have hlen' : ((buf ++ [v]).drop 1).length = buf.length := by simp
    have hcap' := pushGo_getAmount s k v buf
    have hover' : LineChart.getAmountOfValues (LineChart.pushGo s k v buf)
        < ((((buf ++ [v]).drop 1)).length : ℚ) := by
      rw [hcap', hlen']
      exact hover
    rcases ih (LineChart.pushGo s k v buf) ((buf ++ [v]).drop 1) hl' hover' with
      ⟨s₂, b₂, hpm, hl₂, hlen₂, hcap₂⟩
    refine ⟨s₂, b₂, ?_, hl₂, by rw [hlen₂, hlen'], by rw [hcap₂, hcap']⟩
    rw [pushMany_cons, push_eq v hl, Option.some_bind]
    exact hpm

theorem pushMany_bounded : ∀ (vs : List ℚ) (s : LineChart) (k : ℕ) (buf : List ℚ),
    s.period = 6 → s.samplingTime = 10 →
    dataLookup s.data k = some buf → buf.length ≤ 600 →
    ∀ s₂ b₂, LineChart.pushMany k vs s = some s₂ →
      dataLookup s₂.data k = some b₂ → b₂.length ≤ 600 := by
  intro vs
  induction vs with
  | nil =>
    intro s k buf h6 h10 hl hlen s₂ b₂ hp hl₂
    have hs : s = s₂ := by
      have : some s = some s₂ := hp
      injection this
    subst hs
    rw [hl] at hl₂
    injection hl₂ with hbe
    subst hbe
    exact hlen
  | cons v vs ih =>
    intro s k buf h6 h10 hl hlen s₂ b₂ hp hl₂
    rw [pushMany_cons, push_eq v hl, Option.some_bind] at hp
    have hl' := pushGo_lookup_self s k v buf
    have h6' : (LineChart.pushGo s k v buf).period = 6 := by rw [pushGo_period, h6]
    have h10' : (LineChart.pushGo s k v buf).samplingTime = 10 := by
      rw [pushGo_samplingTime, h10]
    by_cases hcond : LineChart.getAmountOfValues s ≤ ((buf ++ [v]).length : ℚ)
    · rw [if_pos hcond] at hl'
      have hlen' : ((buf ++ [v]).drop 1).length ≤ 600 := by
        simp
        omega
      exact ih _ k _ h6' h10' hl' hlen' s₂ b₂ hp hl₂
    · rw [if_neg hcond] at hl'
      have hlen' : (buf ++ [v]).length ≤ 600 := by
        rw [getAmount_default h6 h10] at hcond
        have : ((buf ++ [v]).length : ℚ) < 600 := lt_of_not_le hcond
        exact_mod_cast this.le
      exact ih _ k _ h6' h10' hl' hlen' s₂ b₂ hp hl₂

theorem pushMany_full600 : ∀ (vs : List ℚ) (s : LineChart) (k : ℕ) (buf : List ℚ),
    s.period = 6 → s.samplingTime = 10 →
    dataLookup s.data k = some buf → buf.length = 599 →
    (LineChart.pushMany k vs s).bind (fun t => dataLookup t.data k)
      = some ((buf ++ vs).drop vs.length) := by
  intro vs
  induction vs with
  | nil =>
    intro s k buf h6 h10 hl hlen
    simp [LineChart.pushMany, hl]
  | cons v vs ih =>
    intro s k buf h6 h10 hl hlen
    have hcond : LineChart.getAmountOfValues s ≤ ((buf ++ [v]).length : ℚ) := by
      rw [getAmount_default h6 h10, List.length_append, hlen]
      norm_num
    have hl' := pushGo_lookup_self s k v buf
    rw [if_pos hcond] at hl'
    have h6' : (LineChart.pushGo s k v buf).period = 6 := by rw [pushGo_period, h6]
    have h10' : (LineChart.pushGo s k v buf).samplingTime = 10 := by
      rw [pushGo_samplingTime, h10]
    have hlen' : ((buf ++ [v]).drop 1).length = 599 := by
      simp [hlen]
    rw [pushMany_cons, push_eq v hl, Option.some_bind]
    rw [ih _ k _ h6' h10' hl' hlen']
    congr 1
    cases buf with
    | nil => simp at hlen
    | cons c rest =>
      show ((rest ++ [v]) ++ vs).drop vs.length = (c :: (rest ++ v :: vs)).drop (vs.length + 1)
      rw [List.drop_succ_cons, List.append_assoc, List.singleton_append]

/-! ### Evaluating the operations on the concrete scenario states -/

theorem ratToNat?_coe (n : ℕ) : ratToNat? ((n : ℕ) : ℚ) = some n := by
  simp [ratToNat?]

theorem ratToNat?_initial :
    ratToNat? (LineChart.getAmountOfValues LineChart.initial - 1) = some 599 := by
  have hcap : LineChart.getAmountOfValues LineChart.initial - 1 = ((599 : ℕ) : ℚ) := by
    norm_num [LineChart.getAmountOfValues, LineChart.getSamplingTime, LineChart.initial]
  rw [hcap, ratToNat?_coe]

theorem addDataType_initial :
    LineChart.addDataType 0 LineChart.initial = some freshChart := by
  unfold LineChart.addDataType
  rw [ratToNat?_initial]
  rfl

theorem changePeriod_initial :
    LineChart.changePeriod (1/50) LineChart.initial = some smallChart := rfl

theorem addDataType_small :
    LineChart.addDataType 0 smallChart = some smallChartA := by
  unfold LineChart.addDataType
  have hcap : LineChart.getAmountOfValues smallChart - 1 = ((1 : ℕ) : ℚ) := by
    norm_num [LineChart.getAmountOfValues, LineChart.getSamplingTime, smallChart]
  rw [hcap, ratToNat?_coe]
  rfl

theorem setSampling_smallA :
    LineChart.setSamplingTime 20 smallChartA = narrowChart := rfl

theorem addDataType_narrow :
    LineChart.addDataType 1 narrowChart = some narrowChartB := by
  unfold LineChart.addDataType
  have hcap : LineChart.getAmountOfValues narrowChart - 1 = ((0 : ℕ) : ℚ) := by
    norm_num [LineChart.getAmountOfValues, LineChart.getSamplingTime, narrowChart]
  rw [hcap, ratToNat?_coe]
  rfl

theorem push_narrowB :
    LineChart.push 1 7 narrowChartB = some evictedMaxChart := by
  rw [push_eq 7 (rfl : dataLookup narrowChartB.data 1 = some [])]
  congr 1
  unfold LineChart.pushGo
  norm_num [LineChart.getAmountOfValues, LineChart.getSamplingTime,
    LineChart.getMaxValueFromData, LineChart.rescaleAxis, jsMaxList, setData,
    narrowChartB, evictedMaxChart, max_def]

theorem push_evicted :
    LineChart.push 1 7 evictedMaxChart = some evictedMaxChartAfter := by
  rw [push_eq 7 (rfl : dataLookup evictedMaxChart.data 1 = some [])]
  congr 1
  unfold LineChart.pushGo
  norm_num [LineChart.getAmountOfValues, LineChart.getSamplingTime,
    LineChart.getMaxValueFromData, LineChart.rescaleAxis, jsMaxList, setData,
    evictedMaxChart, evictedMaxChartAfter, max_def]

theorem push_padded :
    LineChart.push 0 0 paddedChart = some paddedChartAfter := by
  rw [push_eq 0 (rfl : dataLookup paddedChart.data 0 = some (List.replicate 599 0))]
  congr 1
  have hb : (List.replicate 599 (0:ℚ) ++ [0]).headI = 0 := by
    rw [show (599 : ℕ) = 598 + 1 from rfl, List.replicate_succ, List.cons_append]
    rfl
  unfold LineChart.pushGo
  norm_num [LineChart.getAmountOfValues, LineChart.getSamplingTime, setData,
    paddedChart, paddedChartAfter, hb, List.length_append, List.length_replicate]

theorem pushMany_padded :
    LineChart.pushMany 0 [0] paddedChart = some paddedChartAfter := by
  rw [pushMany_cons, push_padded, Option.some_bind]
  rfl

theorem push_evictHead :
    LineChart.push 0 5 evictHeadChart = some evictHeadChartAfter := by
  rw [push_eq 5 (rfl : dataLookup evictHeadChart.data 0 = some [2, 1])]
  congr 1
  unfold LineChart.pushGo
  norm_num [LineChart.getAmountOfValues, LineChart.getSamplingTime,
    LineChart.getMaxValueFromData, LineChart.rescaleAxis, jsMaxList, setData,
    evictHeadChart, evictHeadChartAfter, max_def]

theorem push_negSmall :
    LineChart.push 0 (-1) smallChartA = some negChart := by
  rw [push_eq (-1) (rfl : dataLookup smallChartA.data 0 = some [0])]
  congr 1
  unfold LineChart.pushGo
  norm_num [LineChart.getAmountOfValues, LineChart.getSamplingTime,
    LineChart.getMaxValueFromData, LineChart.rescaleAxis, jsMaxList, setData,
    smallChartA, negChart, max_def]

theorem addDataType_smallA :
    LineChart.addDataType 1 smallChartA = some pairChartA := by
  unfold LineChart.addDataType
  have hcap : LineChart.getAmountOfValues smallChartA - 1 = ((1 : ℕ) : ℚ) := by
    norm_num [LineChart.getAmountOfValues, LineChart.getSamplingTime, smallChartA]
  rw [hcap, ratToNat?_coe]
  rfl

theorem push_pairA :
    LineChart.push 0 5 pairChartA = some pairChartB := by
  rw [push_eq 5 (rfl : dataLookup pairChartA.data 0 = some [0])]
  congr 1
  unfold LineChart.pushGo
  norm_num [LineChart.getAmountOfValues, LineChart.getSamplingTime,
    LineChart.getMaxValueFromData, LineChart.rescaleAxis, jsMaxList, setData,
    pairChartA, pairChartB, max_def]

theorem push_pairB :
    LineChart.push 1 (-3) pairChartB = some negPairChart := by
  rw [push_eq (-3) (rfl : dataLookup pairChartB.data 1 = some [0])]
  congr 1
  unfold LineChart.pushGo
  norm_num [LineChart.getAmountOfValues, LineChart.getSamplingTime,
    LineChart.getMaxValueFromData, LineChart.rescaleAxis, jsMaxList, setData,
    pairChartB, negPairChart, max_def]

theorem remove_negPair_max :
    (LineChart.removeDataType 0 negPairChart).maxDisplayedValue = 0 := by
  norm_num [LineChart.removeDataType, LineChart.getMaxValueFromData, removeKey,
    jsMaxList, negPairChart, max_def]

theorem remove_negPair_samples :
    allSamples (LineChart.removeDataType 0 negPairChart).data = [-3] := by
  norm_num [LineChart.removeDataType, allSamples, removeKey, negPairChart]

theorem remove_twoSeries_max :
    (LineChart.removeDataType 0 twoSeriesChart).maxDisplayedValue = 3 := by
  norm_num [LineChart.removeDataType, LineChart.getMaxValueFromData, removeKey,
    jsMaxList, twoSeriesChart, max_def]

theorem push_overfull :
    LineChart.push 0 4 overfullChart = some overfullChartA := by
  rw [push_eq 4 (rfl : dataLookup overfullChart.data 0 = some [1, 2, 3])]
  congr 1
  unfold LineChart.pushGo
  norm_num [LineChart.getAmountOfValues, LineChart.getSamplingTime,
    LineChart.getMaxValueFromData, LineChart.rescaleAxis, jsMaxList, setData,
    overfullChart, overfullChartA, max_def]

theorem push_overfullA :
    LineChart.push 0 5 overfullChartA = some overfullChartB := by
  rw [push_eq 5 (rfl : dataLookup overfullChartA.data 0 = some [2, 3, 4])]
  congr 1
  unfold LineChart.pushGo
  norm_num [LineChart.getAmountOfValues, LineChart.getSamplingTime,
    LineChart.getMaxValueFromData, LineChart.rescaleAxis, jsMaxList, setData,
    overfullChartA, overfullChartB, max_def]

theorem pushMany_overfull :
    LineChart.pushMany 0 [4, 5] overfullChart = some overfullChartB := by
  rw [pushMany_cons, push_overfull, Option.some_bind, pushMany_cons, push_overfullA,
    Option.some_bind]
  rfl

theorem clamped_evictedAfter : clampedMax evictedMaxChartAfter.data = 0 := by
  norm_num [clampedMax, allSamples, evictedMaxChartAfter, max_def]

theorem samples_negChart : allSamples negChart.data = [-1] := by
  norm_num [allSamples, negChart]

theorem getMax_negChart : LineChart.getMaxValueFromData negChart = 0 := by
  norm_num [LineChart.getMaxValueFromData, jsMaxList, negChart, max_def]

theorem seq601_pairwise : List.Pairwise (fun a b : ℚ => a < b) seq601 := by
  unfold seq601
  refine List.Pairwise.map _ ?_ (List.pairwise_lt_range 601)
  intro a b hab
  have hc : (a:ℚ) < (b:ℚ) := by exact_mod_cast hab
  linarith

theorem chain601_drop2 :
    ((LineChart.addDataType 0 LineChart.initial).bind
        (LineChart.pushMany 0 seq601)).bind (fun t => dataLookup t.data 0)
      = some (seq601.drop 2) := by
  rw [addDataType_initial, Option.some_bind]
  rw [pushMany_full600 seq601 freshChart 0 (List.replicate 599 0) rfl rfl rfl (by simp)]
  have hlen : seq601.length = 601 := by simp [seq601]
  rw [hlen, show (601 : ℕ) = (List.replicate 599 (0:ℚ)).length + 2 by simp,
    List.drop_append]

theorem jsIndexOf_eq_neg_one {l : List ℕ} {x : ℕ} (h : x ∉ l) :
    jsIndexOf l x = -1 := by
  induction l with
  | nil => rfl
  | cons a t ih =>
    have hax : ¬ a = x := fun He => h (He ▸ List.mem_cons_self a t)
    have hxt : x ∉ t := fun hm => h (List.mem_cons_of_mem a hm)
    simp [jsIndexOf, hax, ih hxt]

theorem jsSplice_neg_one {l : List ℕ} (h : l ≠ []) :
    jsSpliceRemoveOne l (-1) = l.dropLast := by
  unfold jsSpliceRemoveOne
  dsimp only
  have hlen : 1 ≤ l.length := List.length_pos.mpr h
  rw [if_pos (by norm_num : (-1 : Int) < 0)]
  have hmax : max ((l.length : Int) + (-1)) 0 = (l.length : Int) - 1 := by omega
  rw [hmax]
  have htn : ((l.length : Int) - 1).toNat = l.length - 1 := by omega
  rw [htn]
  have hsucc : l.length - 1 + 1 = l.length := by omega
  rw [hsucc, List.drop_length, List.append_nil, List.dropLast_eq_take]

/-! ### The claims -/

/-- Claim C1 (counterexample): with period 6 s and sampling time 10 ms
(capacity 600), pushing the 601 strictly increasing values `1, ..., 601`
into a freshly added series leaves the buffer at length 599, not 600 as
claimed. -/
theorem lineChart_capacity_scenario_not600 :
    ((((LineChart.addDataType 0 LineChart.initial).bind
        (LineChart.pushMany 0 seq601)).bind (fun t => dataLookup t.data 0)).map
      List.length = some 599)
    ∧ (599 : ℕ) ≠ 600 := by
  constructor
  · rw [chain601_drop2]
    simp [seq601]
  · norm_num

/-- Claim C1 (amended): with period 6 s and sampling time 10 ms
(capacity 600), pushing 601 strictly increasing values into a freshly added
series leaves the buffer holding exactly the last 599 pushed values in
order — one less than the capacity, because `addDataType` allocates
`capacity - 1` slots and `push` evicts as soon as the buffer length reaches
the capacity. -/
theorem lineChart_capacity_scenario_last599 :
    ((LineChart.addDataType 0 LineChart.initial).bind
        (LineChart.pushMany 0 seq601)).bind (fun t => dataLookup t.data 0)
      = some (seq601.drop 2)
    ∧ (seq601.drop 2).length = 599
    ∧ List.Pairwise (fun a b : ℚ => a < b) seq601 :=
  ⟨chain601_drop2, by simp [seq601], seq601_pairwise⟩

/-- Claim C2 (counterexample): on a freshly constructed chart the capacity
`getAmountOfValues()` is 600, but `addDataType` allocates a zero-filled
buffer of length 599, not 600 as claimed. -/
theorem lineChart_addDataType_not_capacity :
    (((LineChart.addDataType 0 LineChart.initial).bind
        (fun t => dataLookup t.data 0)).map List.length = some 599)
    ∧ LineChart.getAmountOfValues LineChart.initial = 600
    ∧ (599 : ℕ) ≠ 600 := by
  refine ⟨?_, ?_, by norm_num⟩
  · rw [addDataType_initial, Option.some_bind]
    simp [freshChart, dataLookup]
  · norm_num [LineChart.getAmountOfValues, LineChart.getSamplingTime, LineChart.initial]

/-- Claim C2 (amended): whenever the allocation succeeds, `addDataType(k)`
allocates for `k` a zero-filled buffer whose length `n` satisfies
`(n : ℚ) = getAmountOfValues() - 1` — one less than the current capacity —
and registers `k` in the chart map. -/
theorem lineChart_addDataType_allocates (s s' : LineChart) (k n : ℕ)
    (hn : ratToNat? (LineChart.getAmountOfValues s - 1) = some n)
    (ha : LineChart.addDataType k s = some s') :
    dataLookup s'.data k = some (List.replicate n 0)
    ∧ (n : ℚ) = LineChart.getAmountOfValues s - 1
    ∧ s'.chartMap = s.chartMap ++ [k] := by
  unfold LineChart.addDataType at ha
  rw [hn, Option.map_some'] at ha
  injection ha with he
  subst he
  refine ⟨dataLookup_setData_self _ _ _, ?_, rfl⟩
  unfold ratToNat? at hn
  split_ifs at hn with hc
  · injection hn with hne
    subst hne
    obtain ⟨hden, hnum⟩ := hc
    have h1 : (((LineChart.getAmountOfValues s - 1).num.toNat : ℕ) : ℤ)
        = (LineChart.getAmountOfValues s - 1).num := Int.toNat_of_nonneg hnum
    have h2 : (((LineChart.getAmountOfValues s - 1).num : ℤ) : ℚ)
        = LineChart.getAmountOfValues s - 1 :=
      (Rat.den_eq_one_iff _).mp hden
    calc (((LineChart.getAmountOfValues s - 1).num.toNat : ℕ) : ℚ)
        = ((((LineChart.getAmountOfValues s - 1).num.toNat : ℕ) : ℤ) : ℚ) := by
          push_cast
          ring
      _ = (((LineChart.getAmountOfValues s - 1).num : ℤ) : ℚ) := by rw [h1]
      _ = LineChart.getAmountOfValues s - 1 := h2

/-- Claim C2 witness: at construction-time configuration the allocation
succeeds with `n = 599` and `(599 : ℚ) = 600 - 1`. -/
theorem lineChart_addDataType_allocates_witness :
    dataLookup freshChart.data 0 = some (List.replicate 599 0)
    ∧ ((599 : ℕ) : ℚ) = LineChart.getAmountOfValues LineChart.initial - 1
    ∧ freshChart.chartMap = LineChart.initial.chartMap ++ [0] :=
  lineChart_addDataType_allocates LineChart.initial freshChart 0 599
    ratToNat?_initial addDataType_initial

/-- Claim C3: with period and sampling time at their construction-time
values 6 s and 10 ms (capacity 600), a push on a series whose buffer is
within the capacity leaves it within the capacity — and so, by the second
conjunct, every buffer stays within the capacity across any finite sequence
of pushes — and when the push evicts (the buffer had reached 599, i.e. the
appended sample made the length reach the capacity), the evicted sample is
the oldest one: the new buffer is the old buffer minus its head plus the
new sample at the back. -/
theorem lineChart_buffer_bound_and_evict (s s' : LineChart) (k : ℕ)
    (buf buf' : List ℚ) (v : ℚ)
    (h6 : s.period = 6) (h10 : s.samplingTime = 10)
    (hl : dataLookup s.data k = some buf) (hlen : buf.length ≤ 600)
    (hp : LineChart.push k v s = some s') (hl' : dataLookup s'.data k = some buf') :
    (buf'.length ≤ 600 ∧ (599 ≤ buf.length → buf' = buf.drop 1 ++ [v]))
    ∧ ∀ vs s₂ b₂, LineChart.pushMany k vs s = some s₂ →
        dataLookup s₂.data k = some b₂ → b₂.length ≤ 600 := by
  constructor
  · rw [push_eq v hl] at hp
    injection hp with he
    subst he
    rw [pushGo_lookup_self] at hl'
    injection hl' with hbe
    by_cases hcond : LineChart.getAmountOfValues s ≤ ((buf ++ [v]).length : ℚ)
    · rw [if_pos hcond] at hbe
      subst hbe
      constructor
      · simpa using hlen
      · intro h599
        cases buf with
        | nil => simp at h599
        | cons c rest => rfl
    · rw [if_neg hcond] at hbe
      subst hbe
      rw [getAmount_default h6 h10] at hcond
      constructor
      · have hq : ((buf ++ [v]).length : ℚ) < 600 := lt_of_not_le hcond
        have hn : (buf ++ [v]).length < 600 := by exact_mod_cast hq
        exact Nat.le_of_lt hn
      · intro h599
        exfalso
        apply hcond
        have hn : (600 : ℕ) ≤ buf.length + 1 := by omega
        have hq : (600 : ℚ) ≤ ((buf.length + 1 : ℕ) : ℚ) := by exact_mod_cast hn
        simpa [List.length_append] using hq
  · intro vs s₂ b₂ hpm hb₂
    exact pushMany_bounded vs s k buf h6 h10 hl hlen s₂ b₂ hpm hb₂

/-- Claim C3 witness: a concrete eviction at capacity 600 on a 599-sample
buffer, and a one-push sequence staying within the bound. -/
theorem lineChart_buffer_bound_and_evict_witness :
    (((List.replicate 599 (0:ℚ) ++ [0]).drop 1).length ≤ 600
      ∧ (599 ≤ (List.replicate 599 (0:ℚ)).length →
          (List.replicate 599 (0:ℚ) ++ [0]).drop 1
            = (List.replicate 599 (0:ℚ)).drop 1 ++ [0]))
    ∧ ((List.replicate 599 (0:ℚ) ++ [0]).drop 1).length ≤ 600 := by
  have hl' : dataLookup paddedChartAfter.data 0
      = some ((List.replicate 599 (0:ℚ) ++ [0]).drop 1) := rfl
  have h := lineChart_buffer_bound_and_evict paddedChart paddedChartAfter 0
    (List.replicate 599 0) ((List.replicate 599 (0:ℚ) ++ [0]).drop 1) 0 rfl rfl rfl
    (by simp) push_padded hl'
  exact ⟨h.1, h.2 [0] paddedChartAfter ((List.replicate 599 (0:ℚ) ++ [0]).drop 1)
    pushMany_padded hl'⟩

/-- Claim C4: in every state reachable from construction by `addDataType`,
`push`, `removeDataType` and `changePeriod` calls, `maxDisplayedValue`
bounds every sample present in every live buffer. -/
theorem lineChart_max_bounds_all_samples (s : LineChart)
    (h : LineChart.Reach s) (k : ℕ) (buf : List ℚ)
    (hl : dataLookup s.data k = some buf) (x : ℚ) (hx : x ∈ buf) :
    x ≤ s.maxDisplayedValue :=
  (reach_inv h).2 k buf hl x hx

/-- Claim C4 witness: the sample `0` in the reachable state obtained by
`changePeriod(1/50)` then `addDataType(0)` is bounded by the displayed
maximum. -/
theorem lineChart_max_bounds_all_samples_witness :
    (0:ℚ) ≤ smallChartA.maxDisplayedValue := by
  have hr1 : LineChart.Reach smallChart :=
    LineChart.Reach.period (1/50) LineChart.Reach.init changePeriod_initial
  have hr2 : LineChart.Reach smallChartA :=
    LineChart.Reach.add 0 hr1 addDataType_small
  exact lineChart_max_bounds_all_samples smallChartA hr2 0 [0] rfl 0 (by simp)

/-- Claim C5 (counterexample): a push that evicts (capacity 1, empty
buffer) whose evicted sample — the pushed value itself — equals the
displayed maximum, after which `maxDisplayedValue = 7` differs from the
true maximum `0` over the remaining samples; the state is reached through
the public interface. -/
theorem lineChart_evicted_max_stale :
    ((((LineChart.changePeriod (1/50) LineChart.initial).bind
        (LineChart.addDataType 0)).map (LineChart.setSamplingTime 20)).bind
      (LineChart.addDataType 1)).bind (LineChart.push 1 7) = some evictedMaxChart
    ∧ dataLookup evictedMaxChart.data 1 = some []
    ∧ LineChart.getAmountOfValues evictedMaxChart ≤ ((([] : List ℚ).length : ℚ) + 1)
    ∧ (([] : List ℚ) ++ [7]).headI = evictedMaxChart.maxDisplayedValue
    ∧ LineChart.push 1 7 evictedMaxChart = some evictedMaxChartAfter
    ∧ evictedMaxChartAfter.maxDisplayedValue = 7
    ∧ clampedMax evictedMaxChartAfter.data = 0
    ∧ (7 : ℚ) ≠ 0 := by
  refine ⟨?_, rfl, ?_, rfl, push_evicted, rfl, clamped_evictedAfter, by norm_num⟩
  · simp only [changePeriod_initial, Option.some_bind, addDataType_small,
      Option.map_some', setSampling_smallA, addDataType_narrow, push_narrowB]
  · norm_num [LineChart.getAmountOfValues, LineChart.getSamplingTime, evictedMaxChart]

/-- Claim C5 (amended): for a push that evicts from a buffer that was
nonempty before the call, if the evicted sample (the old head) equaled the
displayed maximum, then afterwards `maxDisplayedValue` equals the maximum
of `0` and all samples in all live buffers (the clamped true maximum that
`getMaxValueFromData` computes) and exactly one y-axis rescale is
triggered. -/
theorem lineChart_evicted_max_recompute (s s' : LineChart) (k : ℕ)
    (d v : ℚ) (rest : List ℚ)
    (hl : dataLookup s.data k = some (d :: rest))
    (hev : LineChart.getAmountOfValues s ≤ (((d :: rest).length : ℚ) + 1))
    (hd : d = s.maxDisplayedValue)
    (hp : LineChart.push k v s = some s') :
    s'.maxDisplayedValue = clampedMax s'.data
    ∧ s'.rescaleCount = s.rescaleCount + 1 := by
  rw [push_eq v hl] at hp
  injection hp with he
  subst he
  unfold LineChart.pushGo
  dsimp only
  have hc1 : LineChart.getAmountOfValues
      { s with data := setData k ((d :: rest) ++ [v]) s.data }
        ≤ (((d :: rest) ++ [v]).length : ℚ) := by
    have hsame : LineChart.getAmountOfValues
        { s with data := setData k ((d :: rest) ++ [v]) s.data }
          = LineChart.getAmountOfValues s := rfl
    have h1 : (((d :: rest) ++ [v]).length : ℚ) = ((d :: rest).length : ℚ) + 1 := by
      push_cast [List.length_append, List.length_singleton]
      ring
    rw [hsame, h1]
    exact hev
  rw [if_pos hc1]
  have hc2 : ({ s with
      data := setData k (((d :: rest) ++ [v]).drop 1)
        (setData k ((d :: rest) ++ [v]) s.data) } : LineChart).maxDisplayedValue
        ≤ ((d :: rest) ++ [v]).headI := by
    show s.maxDisplayedValue ≤ d
    exact le_of_eq hd.symm
  rw [if_pos hc2]
  have hvle : v ≤ LineChart.getMaxValueFromData { s with
      data := setData k (((d :: rest) ++ [v]).drop 1)
        (setData k ((d :: rest) ++ [v]) s.data) } := by
    rw [getMax_eq_clampedMax]
    refine le_clampedMax_of_mem (dataLookup_mem (dataLookup_setData_self _ _ _)) ?_
    show v ∈ ((d :: rest) ++ [v]).drop 1
    simp
  have hnlt : ¬ ((LineChart.rescaleAxis { { s with
      data := setData k (((d :: rest) ++ [v]).drop 1)
        (setData k ((d :: rest) ++ [v]) s.data) } with
      maxDisplayedValue := LineChart.getMaxValueFromData { s with
        data := setData k (((d :: rest) ++ [v]).drop 1)
          (setData k ((d :: rest) ++ [v]) s.data) } }).maxDisplayedValue < v) := by
    show ¬ (LineChart.getMaxValueFromData _ < v)
    exact not_lt.mpr hvle
  rw [if_neg hnlt]
  constructor
  · show LineChart.getMaxValueFromData _ = clampedMax _
    rw [getMax_eq_clampedMax]
    rfl
  · rfl

/-- Claim C5 witness: evicting the head `2` — the displayed maximum — of
the buffer `[2, 1]` at capacity 2 recomputes the maximum to `5` (the
clamped true maximum) and rescales once. -/
theorem lineChart_evicted_max_recompute_witness :
    evictHeadChartAfter.maxDisplayedValue = clampedMax evictHeadChartAfter.data
    ∧ evictHeadChartAfter.rescaleCount = evictHeadChart.rescaleCount + 1 :=
  lineChart_evicted_max_recompute evictHeadChart evictHeadChartAfter 0 2 5 [1] rfl
    (by norm_num [LineChart.getAmountOfValues, LineChart.getSamplingTime,
      evictHeadChart])
    rfl push_evictHead

/-- Claim C6 (counterexample): a reachable state whose only sample is `-1`,
where `getMaxValueFromData` returns `0` rather than the maximum sample
value `-1`. -/
theorem lineChart_getMaxValue_negative_miss :
    ((LineChart.changePeriod (1/50) LineChart.initial).bind
        (LineChart.addDataType 0)).bind (LineChart.push 0 (-1)) = some negChart
    ∧ allSamples negChart.data = [-1]
    ∧ LineChart.getMaxValueFromData negChart = 0
    ∧ (0 : ℚ) ≠ -1 := by
  refine ⟨?_, samples_negChart, getMax_negChart, by norm_num⟩
  simp only [changePeriod_initial, Option.some_bind, addDataType_small, push_negSmall]

/-- Claim C6 (amended): `getMaxValueFromData()` returns the maximum of `0`
and all sample values over all live buffers (so the sample maximum whenever
some sample is non-negative), and returns `0` when no buffers exist. -/
theorem lineChart_getMaxValue_clamped :
    (∀ s : LineChart, LineChart.getMaxValueFromData s = clampedMax s.data)
    ∧ LineChart.getMaxValueFromData LineChart.initial = 0 :=
  ⟨getMax_eq_clampedMax, rfl⟩

/-- Claim C7 (counterexample): a reachable two-series state with buffers
`[5]` and `[-3]`; removing the series with maximum `5` sets
`maxDisplayedValue` to `0`, not to the remaining sample maximum `-3`. -/
theorem lineChart_remove_negative_miss :
    ((((LineChart.changePeriod (1/50) LineChart.initial).bind
        (LineChart.addDataType 0)).bind (LineChart.addDataType 1)).bind
      (LineChart.push 0 5)).bind (LineChart.push 1 (-3)) = some negPairChart
    ∧ allSamples (LineChart.removeDataType 0 negPairChart).data = [-3]
    ∧ (LineChart.removeDataType 0 negPairChart).maxDisplayedValue = 0
    ∧ (0 : ℚ) ≠ -3 := by
  refine ⟨?_, remove_negPair_samples, remove_negPair_max, by norm_num⟩
  simp only [changePeriod_initial, Option.some_bind, addDataType_small,
    addDataType_smallA, push_pairA, push_pairB]

/-- Claim C7 (amended): `removeDataType(k)` deletes `k`'s buffer and sets
`maxDisplayedValue` to the maximum of `0` and all samples in the remaining
buffers; in the scenario with buffer maxima 5 and 3, removing the 5-series
leaves the displayed maximum at 3. -/
theorem lineChart_remove_recomputes_max :
    (∀ (s : LineChart) (k : ℕ),
      dataLookup (LineChart.removeDataType k s).data k = none
      ∧ (LineChart.removeDataType k s).data = removeKey k s.data
      ∧ (LineChart.removeDataType k s).maxDisplayedValue
          = clampedMax (removeKey k s.data))
    ∧ (LineChart.removeDataType 0 twoSeriesChart).maxDisplayedValue = 3 := by
  constructor
  · intro s k
    refine ⟨dataLookup_removeKey_self _ _, rfl, ?_⟩
    show LineChart.getMaxValueFromData _ = _
    rw [getMax_eq_clampedMax]
  · exact remove_twoSeries_max

/-- Claim C8: `NumberChart.push(lineId, value)` sets the displayed value to
`value`, and the series identifier has no effect on the resulting state. -/
theorem numberChart_push_ignores_series :
    ∀ (s : NumberChart) (a b : ℕ) (v : ℚ),
      (NumberChart.push a v s).displayedValue = v
      ∧ NumberChart.push a v s = NumberChart.push b v s :=
  fun _ _ _ _ => ⟨rfl, rfl⟩

/-- Claim C9: on both chart kinds, `removeDataType` with a never-added
identifier (so `indexOf` returns `-1` and `splice(-1, 1)` runs) removes the
most recently added identifier from a nonempty chart map — the earlier
entries are exactly preserved (`dropLast`). -/
theorem removeDataType_absent_drops_last (nc : NumberChart) (lc : LineChart)
    (i j : ℕ) (hni : i ∉ nc.chartMap) (hne : nc.chartMap ≠ [])
    (hlj : j ∉ lc.chartMap) (hle : lc.chartMap ≠ []) :
    (NumberChart.removeDataType i nc).chartMap = nc.chartMap.dropLast
    ∧ (LineChart.removeDataType j lc).chartMap = lc.chartMap.dropLast := by
  constructor
  · show jsSpliceRemoveOne nc.chartMap (jsIndexOf nc.chartMap i) = _
    rw [jsIndexOf_eq_neg_one hni, jsSplice_neg_one hne]
  · show jsSpliceRemoveOne lc.chartMap (jsIndexOf lc.chartMap j) = _
    rw [jsIndexOf_eq_neg_one hlj, jsSplice_neg_one hle]

/-- Claim C9 witness: removing the never-added id `5` from charts with
chart map `[3, 8]` leaves `[3]`. -/
theorem removeDataType_absent_drops_last_witness :
    (NumberChart.removeDataType 5 twoTypeNumberChart).chartMap
        = twoTypeNumberChart.chartMap.dropLast
    ∧ (LineChart.removeDataType 5 twoTypeLineChart).chartMap
        = twoTypeLineChart.chartMap.dropLast :=
  removeDataType_absent_drops_last twoTypeNumberChart twoTypeLineChart 5 5
    (by decide) (by decide) (by decide) (by decide)

/-- Claim C10: `setSamplingTime` changes the capacity without touching any
buffer; a push grows a buffer by one or leaves its length unchanged
(append plus at most one eviction); and once a buffer is strictly longer
than the capacity, any sequence of pushes leaves its length unchanged and
therefore still above the (unchanged) capacity. -/
theorem lineChart_overfull_stays_overfull (s : LineChart) (t : ℚ) (k : ℕ)
    (buf : List ℚ) (v : ℚ) (s₁ : LineChart) (b₁ : List ℚ) (vs : List ℚ)
    (s₂ : LineChart) (b₂ : List ℚ)
    (hl : dataLookup s.data k = some buf) :
    (LineChart.setSamplingTime t s).data = s.data
    ∧ LineChart.getAmountOfValues (LineChart.setSamplingTime t s)
        = s.period / t * 1000
    ∧ (LineChart.push k v s = some s₁ → dataLookup s₁.data k = some b₁ →
        b₁.length = buf.length + 1 ∨ b₁.length = buf.length)
    ∧ (LineChart.getAmountOfValues s < (buf.length : ℚ) →
        LineChart.pushMany k vs s = some s₂ → dataLookup s₂.data k = some b₂ →
        b₂.length = buf.length
          ∧ LineChart.getAmountOfValues s₂ < (b₂.length : ℚ)) := by
  refine ⟨rfl, rfl, ?_, ?_⟩
  · intro hp hb
    rw [push_eq v hl] at hp
    injection hp with he
    subst he
    rw [pushGo_lookup_self] at hb
    injection hb with hbe
    by_cases hc : LineChart.getAmountOfValues s ≤ ((buf ++ [v]).length : ℚ)
    · rw [if_pos hc] at hbe
      subst hbe
      right
      simp
    · rw [if_neg hc] at hbe
      subst hbe
      left
      simp
  · intro hover hpm hb
    rcases pushMany_over k vs s buf hl hover with
      ⟨s₂', b₂', hpm', hl₂', hlen', hcap'⟩
    rw [hpm'] at hpm
    injection hpm with he
    subst he
    rw [hl₂'] at hb
    injection hb with hbe
    subst hbe
    refine ⟨hlen', ?_⟩
    rw [hcap', hlen']
    exact hover

/-- Claim C10 witness: the buffer `[1, 2, 3]` above capacity `1/5` stays at
length 3 across the pushes of `4` and `5`. -/
theorem lineChart_overfull_stays_overfull_witness :
    (LineChart.setSamplingTime 20 overfullChart).data = overfullChart.data
    ∧ LineChart.getAmountOfValues (LineChart.setSamplingTime 20 overfullChart)
        = overfullChart.period / 20 * 1000
    ∧ (([2, 3, 4] : List ℚ).length = ([1, 2, 3] : List ℚ).length + 1
        ∨ ([2, 3, 4] : List ℚ).length = ([1, 2, 3] : List ℚ).length)
    ∧ (([3, 4, 5] : List ℚ).length = ([1, 2, 3] : List ℚ).length
        ∧ LineChart.getAmountOfValues overfullChartB
            < (([3, 4, 5] : List ℚ).length : ℚ)) := by
  have h := lineChart_overfull_stays_overfull overfullChart 20 0
    ([1, 2, 3] : List ℚ) 4 overfullChartA ([2, 3, 4] : List ℚ) [4, 5]
    overfullChartB ([3, 4, 5] : List ℚ) rfl
  refine ⟨h.1, h.2.1, h.2.2.1 push_overfull rfl, h.2.2.2 ?_ pushMany_overfull rfl⟩
  norm_num [LineChart.getAmountOfValues, LineChart.getSamplingTime, overfullChart]

end LiveClient
